import Mathlib

/-!
Verification of the option-kit parts API (`src/routers/v1.py`, `src/models.py`):
a shallow embedding of the `/vehicles/{vid}/complete` endpoint — the option-code
applicability engine and the catalog tree assembly around it — together with
theorems settling the specified properties.
-/

namespace PartsApi

/-! ## Data model (from `src/models.py`) -/

/-- `Vehicle` (models.py): a catalog vehicle row. -/
structure Vehicle where
  vid : String
  series : String
  body : String
  model : String
  market : String
  prod_month : String
  engine : String
  steering : String
  created_at : String
deriving DecidableEq

/-- `OptionCode` (models.py): one selected option code with optional description. -/
structure OptionCode where
  code : String
  description : Option String
deriving DecidableEq

/-- `VehicleOrder` (models.py): the caller-submitted build configuration. -/
structure VehicleOrder where
  vid : String
  order_codes : List OptionCode
deriving DecidableEq

/-! ## Database rows (tables from `tests/conftest.py` schema, read by v1.py) -/

/-- Row of the `main_group_definitions` table. -/
structure MGDRow where
  mg_number : String
  mg_name : String
  description : Option String
deriving DecidableEq

/-- Row of the `vehicle_main_groups` table. -/
structure VMGRow where
  id : Int
  vid : String
  mg_number : String
  url : String
deriving DecidableEq

/-- Row of the `subgroup_definitions` table. -/
structure SGDRow where
  id : Int
  mg_number : String
  sg_number : String
  sg_name : String
deriving DecidableEq

/-- Row of the `vehicle_subgroups` table. -/
structure VSGRow where
  id : Int
  vehicle_mg_id : Int
  sg_definition_id : Int
deriving DecidableEq

/-- Row of the `diagrams` table. -/
structure DiagRow where
  id : Int
  vehicle_subgroup_id : Int
  diagram_id : String
  title : String
  url : String
deriving DecidableEq

/-- Row of the `parts` table (columns selected by the endpoint, plus the
`diagram_id` foreign key used in the WHERE clause). -/
structure PartRow where
  id : Int
  diagram_id : Int
  position : String
  description : String
  part_number : String
  quantity : String
  supplement : String
  from_date : String
  up_to_date : String
  price : String
  notes : String
  option_requirements : Option String
  option_codes : Option String
deriving DecidableEq

/-- The read-only catalog store: the five related tables of §3/§6. -/
structure DB where
  vehicles : List Vehicle
  main_group_definitions : List MGDRow
  subgroup_definitions : List SGDRow
  vehicle_main_groups : List VMGRow
  vehicle_subgroups : List VSGRow
  diagrams : List DiagRow
  parts : List PartRow
deriving DecidableEq

/-! ## Response shapes (`MainGroupNested` and friends from models.py) -/

/-- `PartNested` (models.py): a part record as emitted in the nested tree. -/
structure PartNested where
  id : Int
  position : String
  description : String
  part_number : String
  quantity : String
  supplement : String
  from_date : String
  up_to_date : String
  price : String
  notes : String
  option_requirements : Option String
  option_codes : Option String
deriving DecidableEq

/-- `DiagramNested` (models.py). -/
structure DiagramNested where
  id : Int
  diagram_id : String
  title : String
  url : String
  parts : List PartNested
deriving DecidableEq

/-- `SubGroupNested` (models.py). -/
structure SubGroupNested where
  sg_number : String
  sg_name : String
  diagrams : List DiagramNested
deriving DecidableEq

/-- `MainGroupNested` (models.py). -/
structure MainGroupNested where
  mg_number : String
  mg_name : String
  url : String
  subgroups : List SubGroupNested
deriving DecidableEq

/-- An HTTP error raised via `HTTPException` (status code and detail). -/
structure HTTPError where
  status_code : Nat
  detail : String
deriving DecidableEq

deriving instance DecidableEq for Except

/-! ## Option applicability engine (v1.py lines 109–128) -/

/-- Python `str.split(sep)` for a single-character separator: split at every
occurrence of `sep`, keeping empty pieces (`"".split(sep) == [""]`,
`"A=".split('=') == ["A", ""]`). -/
def pySplitAux (sep : Char) : List Char → List Char → List String
  | [], acc => [String.mk acc.reverse]
  | c :: cs, acc =>
      if c = sep then String.mk acc.reverse :: pySplitAux sep cs []
      else pySplitAux sep cs (c :: acc)

/-- Python `s.split(sep)` on a string, single-character separator. -/
def pySplit (s : String) (sep : Char) : List String :=
  pySplitAux sep s.data []

/-- Python `str.strip()`: drop leading and trailing whitespace. -/
def pyStrip (s : String) : String :=
  String.mk (((s.data.dropWhile Char.isWhitespace).reverse.dropWhile
    Char.isWhitespace).reverse)

/-- Python dict assignment `d[k] = v` on an association list with distinct keys:
update the first entry with key `k` in place, or append `(k, v)` at the end. -/
def insertAssoc : List (String × String) → String → String → List (String × String)
  | [], k, v => [(k, v)]
  | (k', v') :: m, k, v =>
      if k' = k then (k, v) :: m else (k', v') :: insertAssoc m k v

/-- One step of the parsing loop (v1.py 113–116): `code_split = code.strip().split('=')`;
if it has exactly two pieces, assign `part_option_codes[code_split[0]] = code_split[1]`. -/
def parseStep (m : List (String × String)) (tok : String) : List (String × String) :=
  match pySplit (pyStrip tok) '=' with
  | [c, v] => insertAssoc m c v
  | _ => m

/-- The requirement mapping built from an `option_codes` string
(v1.py 112–116): split on single spaces, parse each token. -/
def buildOptionMap (s : String) : List (String × String) :=
  (pySplit s ' ').foldl parseStep []

/-- The filtering loop over the requirement mapping (v1.py 118–125):
`addPart` starts true; for each `(code, val)` pair, if `code` is among the
vehicle order's codes then `val == "Yes"` continues, `val == "No"` sets
`addPart = False` and breaks, and any other value falls through. -/
def filterLoop (orderCodes : List String) : List (String × String) → Bool
  | [] => true
  | (code, val) :: rest =>
      if orderCodes.contains code then
        if val = "Yes" then filterLoop orderCodes rest
        else if val = "No" then false
        else filterLoop orderCodes rest
      else filterLoop orderCodes rest

/-- The inclusion decision for one part (v1.py 111–127): if
`part_dict.get('option_codes')` is falsy (absent or empty string) the part is
appended unconditionally; otherwise it is appended iff the filtering loop
leaves `addPart` true. -/
def includePart (option_codes : Option String) (orderCodes : List String) : Bool :=
  match option_codes with
  | none => true
  | some s => if s = "" then true else filterLoop orderCodes (buildOptionMap s)

/-- `vehicleOrder_codes` (v1.py 117): the codes of the submitted order. -/
def vehicleOrderCodes (vo : VehicleOrder) : List String :=
  vo.order_codes.map OptionCode.code

/-! ## SQL semantics: ORDER BY and CAST (the SQLite collaborator of §6) -/

/-- Insert `a` into `l` in front of the first element `b` with `le a b`. -/
def insertSorted (le : α → α → Bool) (a : α) : List α → List α
  | [] => [a]
  | b :: l => if le a b then a :: b :: l else b :: insertSorted le a l

/-- Sorting a result set by a total comparison, modelling SQL `ORDER BY`. -/
def sortBy (le : α → α → Bool) (l : List α) : List α :=
  l.foldr (insertSorted le) []

/-- Decimal value accumulated over the leading digits, stopping at the first
non-digit: the numeric prefix SQLite's `CAST(expr AS INTEGER)` extracts. -/
def parseDigitsAcc (acc : Nat) : List Char → Nat
  | [] => acc
  | c :: cs => if c.isDigit then parseDigitsAcc (10 * acc + (c.toNat - 48)) cs else acc

/-- SQLite `CAST(s AS INTEGER)`: the value of the longest prefix of the
character list that reads as an (optionally signed) decimal integer, `0` if
there is none. -/
def sqlCastIntAux : List Char → Int
  | [] => 0
  | c :: cs =>
      if c = '-' then -(parseDigitsAcc 0 cs : Int)
      else if c = '+' then (parseDigitsAcc 0 cs : Int)
      else (parseDigitsAcc 0 (c :: cs) : Int)

/-- SQLite `CAST(s AS INTEGER)` on a string. -/
def sqlCastInt (s : String) : Int :=
  sqlCastIntAux s.data

/-- A non-empty string consisting solely of decimal digits: what the claims
call a "numeric string". -/
def isDigitStr (s : String) : Bool :=
  !s.data.isEmpty && s.data.all Char.isDigit

/-- The standard decimal value of a digit string. -/
def decValue (s : String) : Nat :=
  s.data.foldl (fun acc c => 10 * acc + (c.toNat - 48)) 0

/-- Lexicographic ≤ on character lists by code point, modelling SQLite's
default BINARY collation for ascending `ORDER BY` on a text column. -/
def strLeB : List Char → List Char → Bool
  | [], _ => true
  | _ :: _, [] => false
  | a :: as, b :: bs =>
      if a.toNat < b.toNat then true
      else if a.toNat = b.toNat then strLeB as bs
      else false

/-- Lexicographic ≤ on strings. -/
def stringLe (s t : String) : Bool := strLeB s.data t.data

/-! ## The catalog queries of `get_vehicle_complete_structure` (v1.py 46–151) -/

/-- Result row of the main-group query (v1.py 56–62):
`vmg.id as vmg_id, vmg.mg_number, mgd.mg_name, vmg.url`. -/
structure MGQueryRow where
  vmg_id : Int
  mg_number : String
  mg_name : String
  url : String
deriving DecidableEq

/-- Result row of the subgroup query (v1.py 69–75):
`vsg.id as vsg_id, sgd.sg_number, sgd.sg_name`. -/
structure SGQueryRow where
  vsg_id : Int
  sg_number : String
  sg_name : String
deriving DecidableEq

/-- Result row of the diagram query (v1.py 84–89): `id, diagram_id, title, url`. -/
structure DiagQueryRow where
  id : Int
  diagram_id : String
  title : String
  url : String
deriving DecidableEq

/-- `SELECT * FROM vehicles WHERE vid = ?` followed by `fetchone()` (v1.py 50–51). -/
def vehicleLookup (db : DB) (vid : String) : Option Vehicle :=
  db.vehicles.find? (fun v => v.vid == vid)

/-- The main-group query (v1.py 56–62): join `vehicle_main_groups` with
`main_group_definitions` on `mg_number`, restrict to the vehicle, order by
`CAST(vmg.mg_number AS INTEGER)`. -/
def mainGroupQuery (db : DB) (vid : String) : List MGQueryRow :=
  sortBy (fun a b => decide (sqlCastInt a.mg_number ≤ sqlCastInt b.mg_number))
    ((db.vehicle_main_groups.filter (fun vmg => vmg.vid == vid)).flatMap
      (fun vmg =>
        (db.main_group_definitions.filter (fun mgd => vmg.mg_number == mgd.mg_number)).map
          (fun mgd => ⟨vmg.id, vmg.mg_number, mgd.mg_name, vmg.url⟩)))

/-- The subgroup query (v1.py 69–75): join `vehicle_subgroups` with
`subgroup_definitions` on `sg_definition_id`, restrict to one vehicle main
group, order by `CAST(sgd.sg_number AS INTEGER)`. -/
def subgroupQuery (db : DB) (mg_id : Int) : List SGQueryRow :=
  sortBy (fun a b => decide (sqlCastInt a.sg_number ≤ sqlCastInt b.sg_number))
    ((db.vehicle_subgroups.filter (fun vsg => vsg.vehicle_mg_id == mg_id)).flatMap
      (fun vsg =>
        (db.subgroup_definitions.filter (fun sgd => vsg.sg_definition_id == sgd.id)).map
          (fun sgd => ⟨vsg.id, sgd.sg_number, sgd.sg_name⟩)))

/-- The diagram query (v1.py 84–89): diagrams of one vehicle subgroup,
ordered by `title`. -/
def diagramQuery (db : DB) (vsg_id : Int) : List DiagQueryRow :=
  sortBy (fun a b => stringLe a.title b.title)
    ((db.diagrams.filter (fun d => d.vehicle_subgroup_id == vsg_id)).map
      (fun d => ⟨d.id, d.diagram_id, d.title, d.url⟩))

/-- The selected part columns, as the endpoint's `dict(part_row)`. -/
def PartRow.toNested (p : PartRow) : PartNested :=
  { id := p.id, position := p.position, description := p.description,
    part_number := p.part_number, quantity := p.quantity,
    supplement := p.supplement, from_date := p.from_date,
    up_to_date := p.up_to_date, price := p.price, notes := p.notes,
    option_requirements := p.option_requirements, option_codes := p.option_codes }

/-- The parts query (v1.py 97–104): parts of one diagram, ordered by
`CAST(position AS INTEGER)`. -/
def partsQuery (db : DB) (diag_db_id : Int) : List PartNested :=
  (sortBy (fun a b => decide (sqlCastInt a.position ≤ sqlCastInt b.position))
    (db.parts.filter (fun p => p.diagram_id == diag_db_id))).map PartRow.toNested

/-! ## Tree assembly (v1.py 65–151) -/

/-- The part filter applied inside the diagram loop (v1.py 109–128). -/
def partPred (orderCodes : List String) (p : PartNested) : Bool :=
  includePart p.option_codes orderCodes

/-- One emitted diagram node (v1.py 106–136): the diagram's part rows with the
excluded parts dropped. -/
def buildDiagram (db : DB) (orderCodes : List String) (d : DiagQueryRow) : DiagramNested :=
  { id := d.id, diagram_id := d.diagram_id, title := d.title, url := d.url,
    parts := (partsQuery db d.id).filter (partPred orderCodes) }

/-- One emitted subgroup node (v1.py 80–142). -/
def buildSubgroup (db : DB) (orderCodes : List String) (sg : SGQueryRow) : SubGroupNested :=
  { sg_number := sg.sg_number, sg_name := sg.sg_name,
    diagrams := (diagramQuery db sg.vsg_id).map (buildDiagram db orderCodes) }

/-- One emitted main-group node (v1.py 65–149). -/
def buildMainGroup (db : DB) (orderCodes : List String) (mg : MGQueryRow) : MainGroupNested :=
  { mg_number := mg.mg_number, mg_name := mg.mg_name, url := mg.url,
    subgroups := (subgroupQuery db mg.vmg_id).map (buildSubgroup db orderCodes) }

/-- The filtered tree for one vehicle and one list of selected codes. -/
def buildTree (db : DB) (vid : String) (orderCodes : List String) : List MainGroupNested :=
  (mainGroupQuery db vid).map (buildMainGroup db orderCodes)

/-- `GET /vehicles/{vid}/complete` (v1.py 46–151): 404 if the vehicle does not
exist, else the filtered main-group → subgroup → diagram → parts tree. -/
def get_vehicle_complete_structure (db : DB) (vid : String) (vehicleOrder : VehicleOrder) :
    Except HTTPError (List MainGroupNested) :=
  match vehicleLookup db vid with
  | none => .error ⟨404, "Vehicle not found"⟩
  | some _ => .ok (buildTree db vid (vehicleOrderCodes vehicleOrder))

/-! ## The unfiltered catalog tree (Catalog Reader of §4.1) -/

/-- An unfiltered diagram node: every part of the diagram, in query order. -/
def buildDiagramFull (db : DB) (d : DiagQueryRow) : DiagramNested :=
  { id := d.id, diagram_id := d.diagram_id, title := d.title, url := d.url,
    parts := partsQuery db d.id }

/-- An unfiltered subgroup node. -/
def buildSubgroupFull (db : DB) (sg : SGQueryRow) : SubGroupNested :=
  { sg_number := sg.sg_number, sg_name := sg.sg_name,
    diagrams := (diagramQuery db sg.vsg_id).map (buildDiagramFull db) }

/-- An unfiltered main-group node. -/
def buildMainGroupFull (db : DB) (mg : MGQueryRow) : MainGroupNested :=
  { mg_number := mg.mg_number, mg_name := mg.mg_name, url := mg.url,
    subgroups := (subgroupQuery db mg.vmg_id).map (buildSubgroupFull db) }

/-- The full (option-unfiltered) catalog tree for one vehicle. -/
def catalogTree (db : DB) (vid : String) : List MainGroupNested :=
  (mainGroupQuery db vid).map (buildMainGroupFull db)

/-! ## Structure skeletons (the tree with part lists erased) -/

/-- A diagram node without its parts. -/
def diagSkel (d : DiagramNested) : Int × String × String × String :=
  (d.id, d.diagram_id, d.title, d.url)

/-- A subgroup node with part lists erased. -/
def sgSkel (s : SubGroupNested) : String × String × List (Int × String × String × String) :=
  (s.sg_number, s.sg_name, s.diagrams.map diagSkel)

/-- A main-group node with part lists erased. -/
def mgSkel (m : MainGroupNested) :
    String × String × String × List (String × String × List (Int × String × String × String)) :=
  (m.mg_number, m.mg_name, m.url, m.subgroups.map sgSkel)

/-- A whole tree with part lists erased. -/
def treeSkel (t : List MainGroupNested) :
    List (String × String × String ×
      List (String × String × List (Int × String × String × String))) :=
  t.map mgSkel

/-! ## Spec-side definitions, for comparison with the code -/

/-- Modelled from the spec's words ("tokens splitting on '=' into exactly two
non-empty parts"): the parsing step with a token discarded unless both sides
of the '=' are non-empty. Spec-side only — for comparison against `parseStep`. -/
def parseStepSpecNE (m : List (String × String)) (tok : String) : List (String × String) :=
  match pySplit (pyStrip tok) '=' with
  | [c, v] => if c ≠ "" ∧ v ≠ "" then insertAssoc m c v else m
  | _ => m

/-- Modelled from the spec's words: the requirement mapping built from the
well-formed tokens only, "well-formed" read as two *non-empty* parts. -/
def buildOptionMapSpecNE (s : String) : List (String × String) :=
  (pySplit s ' ').foldl parseStepSpecNE []

/-- Modelled from the spec's words (claim C1): included iff the mapping built
from the non-empty-sided tokens has no code mapped to "No" that is selected. -/
def includePartSpecNE (option_codes : Option String) (orderCodes : List String) : Bool :=
  match option_codes with
  | none => true
  | some s =>
      if s = "" then true
      else !((buildOptionMapSpecNE s).any fun p => orderCodes.contains p.1 && p.2 == "No")

/-! ## A concrete catalog store, for witnesses -/

/-- A small concrete catalog (one vehicle, one main group, one subgroup, one
diagram, two parts — one gated by `S710A=No`, one ungated), mirroring the
fixture data of `tests/conftest.py`. -/
def sampleDB : DB :=
  { vehicles := [⟨"V1", "3", "Sedan", "330i", "US", "2026-02", "B48", "LHD", "2026-02-15"⟩],
    main_group_definitions := [⟨"11", "Engine", none⟩],
    subgroup_definitions := [⟨1, "11", "10", "Engine Sub"⟩],
    vehicle_main_groups := [⟨1, "V1", "11", "/mg/11"⟩],
    vehicle_subgroups := [⟨1, 1, 1⟩],
    diagrams := [⟨1, 1, "D1", "Main Diagram", "/d/1"⟩],
    parts := [⟨1, 1, "1", "Control Module", "1234", "1", "", "2020-01", "", "150.00", "",
                none, some "S710A=No"⟩,
              ⟨2, 1, "2", "Universal Part", "5678", "1", "", "2020-01", "", "50.00", "",
                none, none⟩] }

/-! ## Engine lemmas -/

/-- The filtering loop excludes exactly when some pair's code is selected and
its value is the literal "No". -/
theorem filterLoop_eq_not_any (codes : List String) (m : List (String × String)) :
    filterLoop codes m = !(m.any fun p => codes.contains p.1 && p.2 == "No") := by
  induction m with
  | nil => simp [filterLoop]
  | cons p rest ih =>
    obtain ⟨c, v⟩ := p
    by_cases hy : v = "Yes"
    · subst hy
      by_cases hc : codes.contains c = true <;>
        simp [filterLoop, hc, ih]
    · by_cases hn : v = "No"
      · subst hn
        by_cases hc : codes.contains c = true <;>
          simp [filterLoop, hc, ih, hy]
      · by_cases hc : codes.contains c = true <;>
          simp [filterLoop, hc, ih, hy, hn]

/-- `filterLoop` only consults the order codes through membership tests. -/
theorem filterLoop_congr_contains (c₁ c₂ : List String)
    (h : ∀ s : String, c₁.contains s = c₂.contains s) (m : List (String × String)) :
    filterLoop c₁ m = filterLoop c₂ m := by
  induction m with
  | nil => rfl
  | cons p rest ih =>
    obtain ⟨c, v⟩ := p
    simp only [filterLoop, h c, ih]

/-- `includePart` only consults the order codes through membership tests. -/
theorem includePart_congr_contains (oc : Option String) (c₁ c₂ : List String)
    (h : ∀ s : String, c₁.contains s = c₂.contains s) :
    includePart oc c₁ = includePart oc c₂ := by
  cases oc with
  | none => rfl
  | some s =>
    by_cases hs : s = "" <;>
      simp [includePart, hs, filterLoop_congr_contains c₁ c₂ h]

/-- A Python dict assignment makes the assigned value the one looked up. -/
theorem insertAssoc_lookup (m : List (String × String)) (k v : String) :
    (insertAssoc m k v).lookup k = some v := by
  induction m with
  | nil => simp [insertAssoc, List.lookup]
  | cons p rest ih =>
    obtain ⟨k', v'⟩ := p
    by_cases hk : k' = k
    · subst hk; simp [insertAssoc, List.lookup]
    · have hkk : (k == k') = false := by simp [Ne.symm hk]
      simp [insertAssoc, hk, List.lookup, ih, hkk]

/-! ## Sorting lemmas -/

/-- Sorted insertion produces a permutation of pushing the element in front. -/
theorem insertSorted_perm (le : α → α → Bool) (a : α) (l : List α) :
    List.Perm (insertSorted le a l) (a :: l) := by
  induction l with
  | nil => exact List.Perm.refl _
  | cons b l ih =>
    unfold insertSorted
    by_cases h : le a b = true
    · rw [if_pos h]
    · rw [if_neg h]
      exact (ih.cons b).trans (List.Perm.swap a b l)

/-- Sorting produces a permutation of the input. -/
theorem sortBy_perm (le : α → α → Bool) (l : List α) :
    List.Perm (sortBy le l) l := by
  induction l with
  | nil => exact List.Perm.refl _
  | cons a l ih => exact (insertSorted_perm le a (sortBy le l)).trans (ih.cons a)

/-- Members of the sorted list are members of the input. -/
theorem mem_of_mem_sortBy {le : α → α → Bool} {l : List α} {x : α}
    (h : x ∈ sortBy le l) : x ∈ l :=
  (sortBy_perm le l).mem_iff.mp h

/-- Sorted insertion preserves pairwise order, for a total transitive comparison. -/
theorem insertSorted_pairwise (le : α → α → Bool)
    (htot : ∀ a b, le a b = false → le b a = true)
    (htrans : ∀ a b c, le a b = true → le b c = true → le a c = true)
    (a : α) (l : List α) (h : l.Pairwise fun x y => le x y = true) :
    (insertSorted le a l).Pairwise fun x y => le x y = true := by
  induction l with
  | nil => simp [insertSorted]
  | cons b l ih =>
    rcases List.pairwise_cons.mp h with ⟨hb, hl⟩
    unfold insertSorted
    by_cases hab : le a b = true
    · rw [if_pos hab]
      refine List.Pairwise.cons ?_ h
      intro x hx
      rcases List.mem_cons.mp hx with rfl | hx
      · exact hab
      · exact htrans a b x hab (hb x hx)
    · rw [if_neg hab]
      refine List.Pairwise.cons ?_ (ih hl)
      intro x hx
      rcases List.mem_cons.mp ((insertSorted_perm le a l).mem_iff.mp hx) with h1 | hx
      · rw [h1]
        exact htot a b (by simpa using hab)
      · exact hb x hx

/-- The sorted list is pairwise ordered, for a total transitive comparison. -/
theorem sortBy_pairwise (le : α → α → Bool)
    (htot : ∀ a b, le a b = false → le b a = true)
    (htrans : ∀ a b c, le a b = true → le b c = true → le a c = true)
    (l : List α) :
    (sortBy le l).Pairwise fun x y => le x y = true := by
  induction l with
  | nil => simp [sortBy]
  | cons a l ih => exact insertSorted_pairwise le htot htrans a (sortBy le l) ih

/-- Sorting by an integer key yields a list pairwise ordered by that key. -/
theorem sortBy_pairwise_intKey (f : α → Int) (l : List α) :
    (sortBy (fun a b => decide (f a ≤ f b)) l).Pairwise fun a b => f a ≤ f b := by
  have h := sortBy_pairwise (fun a b => decide (f a ≤ f b))
    (fun a b hab => by simp at hab ⊢; omega)
    (fun a b c h1 h2 => by simp at h1 h2 ⊢; omega) l
  exact h.imp fun hx => by simpa using hx

/-- Lexicographic ≤ is total. -/
theorem strLeB_total : ∀ s t : List Char, strLeB s t = false → strLeB t s = true
  | [], t => by simp [strLeB]
  | a :: as, [] => by simp [strLeB]
  | a :: as, b :: bs => by
    simp only [strLeB]
    intro h
    by_cases h1 : a.toNat < b.toNat
    · simp [h1] at h
    · by_cases h2 : a.toNat = b.toNat
      · rw [if_neg h1, if_pos h2] at h
        rw [if_neg (by omega), if_pos h2.symm]
        exact strLeB_total as bs h
      · rw [if_pos (by omega)]

/-- Lexicographic ≤ is transitive. -/
theorem strLeB_trans : ∀ s t u : List Char,
    strLeB s t = true → strLeB t u = true → strLeB s u = true
  | [], t, u => by simp [strLeB]
  | a :: as, [], u => by simp [strLeB]
  | a :: as, b :: bs, [] => by
    intro _ h
    simp [strLeB] at h
  | a :: as, b :: bs, c :: cs => by
    simp only [strLeB]
    intro h1 h2
    by_cases hab : a.toNat < b.toNat
    · by_cases hbc : b.toNat < c.toNat
      · rw [if_pos (by omega)]
      · by_cases hbc2 : b.toNat = c.toNat
        · rw [if_pos (by omega)]
        · rw [if_neg hbc, if_neg hbc2] at h2
          simp at h2
    · by_cases hab2 : a.toNat = b.toNat
      · rw [if_neg hab, if_pos hab2] at h1
        by_cases hbc : b.toNat < c.toNat
        · rw [if_pos (by omega)]
        · by_cases hbc2 : b.toNat = c.toNat
          · rw [if_neg (by omega), if_pos (by omega)]
            rw [if_neg hbc, if_pos hbc2] at h2
            exact strLeB_trans as bs cs h1 h2
          · rw [if_neg hbc, if_neg hbc2] at h2
            simp at h2
      · rw [if_neg hab, if_neg hab2] at h1
        simp at h1

/-- Sorting by a lexicographic string key yields a pairwise-ordered list. -/
theorem sortBy_pairwise_stringKey (f : α → String) (l : List α) :
    (sortBy (fun a b => stringLe (f a) (f b)) l).Pairwise
      fun a b => stringLe (f a) (f b) = true := by
  refine sortBy_pairwise (fun a b => stringLe (f a) (f b)) ?_ ?_ l
  · intro a b h
    exact strLeB_total (f a).data (f b).data h
  · intro a b c h1 h2
    exact strLeB_trans (f a).data (f b).data (f c).data h1 h2

/-- On a digit string, SQLite's integer cast is the decimal value. -/
theorem sqlCastInt_eq_decValue (s : String) (h : isDigitStr s = true) :
    sqlCastInt s = (decValue s : Int) := by
  have hall : s.data.all Char.isDigit = true := by
    simp [isDigitStr] at h
    simpa using h.2
  have hacc : ∀ (l : List Char) (acc : Nat), l.all Char.isDigit = true →
      parseDigitsAcc acc l = l.foldl (fun a c => 10 * a + (c.toNat - 48)) acc := by
    intro l
    induction l with
    | nil => intro acc _; rfl
    | cons c cs ih =>
      intro acc hl
      simp only [List.all_cons, Bool.and_eq_true] at hl
      simp only [parseDigitsAcc, hl.1, if_pos, List.foldl_cons]
      exact ih _ hl.2
  cases hd : s.data with
  | nil =>
    simp [isDigitStr, hd] at h
  | cons c cs =>
    have hcd : c.isDigit = true ∧ cs.all Char.isDigit = true := by
      rw [hd] at hall
      simpa using hall
    have hc1 : c ≠ '-' := by
      intro e
      subst e
      simp [Char.isDigit] at hcd
    have hc2 : c ≠ '+' := by
      intro e
      subst e
      simp [Char.isDigit] at hcd
    unfold sqlCastInt
    rw [hd]
    simp only [sqlCastIntAux]
    rw [if_neg hc1, if_neg hc2, hacc (c :: cs) 0 (by rw [← hd]; exact hall)]
    unfold decValue
    rw [hd]

/-! ## Claims C1–C5: the option applicability engine -/

/-- Claim C1, counterexample: with `option_codes = "A=No A="` and the code "A"
selected, the code includes the part, while the claim's reading (where the
token "A=" is discarded for having an empty right side, leaving the mapping
at A ↦ "No") would exclude it. -/
theorem claim_C1_counterexample :
    includePart (some "A=No A=") ["A"] = true ∧
    includePartSpecNE (some "A=No A=") ["A"] = false := by
  constructor
  · decide
  · decide

/-- Claim C1 (amended): a part with empty or absent `option_codes` is always
included; otherwise it is included iff the last-token-wins mapping built from
the tokens that split on '=' into exactly two (possibly empty) parts contains
no code mapped exactly to "No" that is among the order's selected codes. -/
theorem claim_C1 :
    (∀ codes : List String, includePart none codes = true) ∧
    (∀ (s : String) (codes : List String),
      includePart (some s) codes =
        (s == "" || !((buildOptionMap s).any fun p => codes.contains p.1 && p.2 == "No"))) := by
  refine ⟨fun codes => rfl, fun s codes => ?_⟩
  by_cases hs : s = ""
  · subst hs; simp [includePart]
  · simp [includePart, hs, filterLoop_eq_not_any]

/-- Claim C2: a part whose option string is the single token `CODE=Yes` is
included whenever `CODE` is not among the order's selected codes. -/
theorem claim_C2 (s t code : String) (codes : List String)
    (h1 : pySplit s ' ' = [t])
    (h2 : pySplit (pyStrip t) '=' = [code, "Yes"])
    (_h3 : codes.contains code = false) :
    includePart (some s) codes = true := by
  have hs : s ≠ "" := by
    intro e
    subst e
    have he : pySplit "" ' ' = [""] := by decide
    rw [he] at h1
    have ht : t = "" := by
      injection h1 with h1a
      exact h1a.symm
    subst ht
    have h0 : pySplit (pyStrip "") '=' = [""] := by decide
    rw [h0] at h2
    simp at h2
  have hmap : buildOptionMap s = [(code, "Yes")] := by
    unfold buildOptionMap
    rw [h1]
    simp [parseStep, h2, insertAssoc]
  simp [includePart, hs, hmap, filterLoop]

/-- Witness for claim C2 at a concrete part and order. -/
theorem claim_C2_witness : includePart (some "S710A=Yes") ["S4M5A"] = true :=
  claim_C2 "S710A=Yes" "S710A=Yes" "S710A" ["S4M5A"] (by decide) (by decide) (by decide)

/-- Claim C3: a later token for the same code overwrites the earlier one in
the requirement mapping (dict assignment makes the new value the looked-up
one), and in particular `"X=Yes X=No"` with `X` selected excludes the part. -/
theorem claim_C3 :
    (∀ (m : List (String × String)) (k v : String),
      (insertAssoc m k v).lookup k = some v) ∧
    (∀ codes : List String, codes.contains "X" = true →
      includePart (some "X=Yes X=No") codes = false) := by
  refine ⟨insertAssoc_lookup, fun codes h => ?_⟩
  have hmap : buildOptionMap "X=Yes X=No" = [("X", "No")] := by decide
  have hne : ("X=Yes X=No" : String) ≠ "" := by decide
  have hmem : "X" ∈ codes := by simpa using h
  simp [includePart, hne, hmap, filterLoop, hmem]

/-- Witness for claim C3 at the order that selects X. -/
theorem claim_C3_witness : includePart (some "X=Yes X=No") ["X"] = false :=
  claim_C3.2 ["X"] (by decide)

/-- Claim C4, counterexample: the token "A=" splits on '=' into two parts (the
second empty), so the parser does NOT discard it: it contributes the entry
A ↦ "" to the mapping, and through last-token-wins it overwrites the entry of
the valid token "A=No" in the same string, flipping the decision for an order
that selects A. -/
theorem claim_C4_counterexample :
    buildOptionMap "A=" = [("A", "")] ∧
    includePart (some "A=No A=") ["A"] = true ∧
    includePart (some "A=No") ["A"] = false := by
  refine ⟨by decide, by decide, by decide⟩

/-- Claim C4 (amended): a token that does not split on '=' into exactly two
parts (e.g. "BADTOKEN", "A=B=C") is silently discarded and leaves the
requirement mapping unchanged; a token with exactly two parts contributes an
entry even when a side is empty (e.g. "A="), though such values never cause
exclusion by themselves. -/
theorem claim_C4 (tok : String) (h : (pySplit (pyStrip tok) '=').length ≠ 2)
    (m : List (String × String)) :
    parseStep m tok = m := by
  unfold parseStep
  split
  · rename_i c v heq
    exact absurd (by simp [heq]) h
  · rfl

/-- Witness for claim C4 at the malformed token "A=B=C". -/
theorem claim_C4_witness :
    (pySplit (pyStrip "A=B=C") '=').length ≠ 2 ∧
    parseStep [("X", "No")] "A=B=C" = [("X", "No")] :=
  ⟨by decide, claim_C4 "A=B=C" (by decide) [("X", "No")]⟩

/-- Claim C5: a requirement pair whose value is neither "Yes" nor "No" never
causes exclusion — removing it from the mapping (wherever it sits) does not
change the filtering loop's decision, even when its code is selected. -/
theorem claim_C5 (codes : List String) (m1 m2 : List (String × String)) (c v : String)
    (hy : v ≠ "Yes") (hn : v ≠ "No") :
    filterLoop codes (m1 ++ (c, v) :: m2) = filterLoop codes (m1 ++ m2) := by
  induction m1 with
  | nil =>
    by_cases hc : codes.contains c = true <;> simp [filterLoop, hc, hy, hn]
  | cons p rest ih =>
    obtain ⟨a, b⟩ := p
    simp only [List.cons_append, filterLoop, List.append_eq, ih]

/-- Witness for claim C5 at a selected code with the unrecognized value "Maybe". -/
theorem claim_C5_witness :
    filterLoop ["A"] ([] ++ ("A", "Maybe") :: []) = filterLoop ["A"] ([] ++ []) :=
  claim_C5 ["A"] [] [] "A" "Maybe" (by decide) (by decide)

/-! ## Claims C6, C7, C9, C10: the endpoint around the engine -/

/-- Claim C6: when no vehicle matches the requested ID, the endpoint fails
with HTTP 404 and returns no tree at all. -/
theorem claim_C6 (db : DB) (vid : String) (vo : VehicleOrder)
    (h : vehicleLookup db vid = none) :
    get_vehicle_complete_structure db vid vo = .error ⟨404, "Vehicle not found"⟩ := by
  simp [get_vehicle_complete_structure, h]

/-- Witness for claim C6 at an ID absent from the sample catalog. -/
theorem claim_C6_witness :
    get_vehicle_complete_structure sampleDB "NOPE" ⟨"V1", []⟩ =
      .error ⟨404, "Vehicle not found"⟩ :=
  claim_C6 sampleDB "NOPE" ⟨"V1", []⟩ (by decide)

/-- A successful response is exactly the filtered tree of the submitted codes. -/
theorem ok_tree_eq (db : DB) (vid : String) (vo : VehicleOrder)
    (tree : List MainGroupNested)
    (h : get_vehicle_complete_structure db vid vo = .ok tree) :
    tree = buildTree db vid (vehicleOrderCodes vo) := by
  unfold get_vehicle_complete_structure at h
  cases hv : vehicleLookup db vid with
  | none =>
    rw [hv] at h
    simp at h
  | some veh =>
    rw [hv] at h
    injection h with h1
    exact h1.symm

/-- Filtering does not change a subgroup node's skeleton. -/
theorem sgSkel_build (db : DB) (codes : List String) (sg : SGQueryRow) :
    sgSkel (buildSubgroup db codes sg) = sgSkel (buildSubgroupFull db sg) := by
  unfold sgSkel buildSubgroup buildSubgroupFull
  simp only [List.map_map]
  rfl

/-- Filtering does not change a main-group node's skeleton. -/
theorem mgSkel_build (db : DB) (codes : List String) (mg : MGQueryRow) :
    mgSkel (buildMainGroup db codes mg) = mgSkel (buildMainGroupFull db mg) := by
  unfold mgSkel buildMainGroup buildMainGroupFull
  simp only [List.map_map]
  exact congrArg (fun l => (mg.mg_number, mg.mg_name, mg.url, l))
    (List.map_congr_left fun sg _ => sgSkel_build db codes sg)

/-- The filtered tree has the same skeleton as the unfiltered catalog tree. -/
theorem treeSkel_buildTree (db : DB) (vid : String) (codes : List String) :
    treeSkel (buildTree db vid codes) = treeSkel (catalogTree db vid) := by
  unfold treeSkel buildTree catalogTree
  simp only [List.map_map]
  exact List.map_congr_left fun mg _ => mgSkel_build db codes mg

/-- Claim C7: the complete-structure response has exactly the main-group,
subgroup and diagram nodes of the unfiltered catalog tree — option filtering
removes only parts, and structure nodes survive (possibly with empty part
lists). -/
theorem claim_C7 (db : DB) (vid : String) (vo : VehicleOrder)
    (tree : List MainGroupNested)
    (h : get_vehicle_complete_structure db vid vo = .ok tree) :
    treeSkel tree = treeSkel (catalogTree db vid) := by
  rw [ok_tree_eq db vid vo tree h]
  exact treeSkel_buildTree db vid (vehicleOrderCodes vo)

/-- Witness for claim C7 on the sample catalog, where the order selects S710A
and the S710A=No part is filtered out yet the diagram node survives. -/
theorem claim_C7_witness :
    treeSkel [⟨"11", "Engine", "/mg/11",
      [⟨"10", "Engine Sub",
        [⟨1, "D1", "Main Diagram", "/d/1",
          [⟨2, "2", "Universal Part", "5678", "1", "", "2020-01", "", "50.00", "",
            none, none⟩]⟩]⟩]⟩] = treeSkel (catalogTree sampleDB "V1") :=
  claim_C7 sampleDB "V1" ⟨"V1", [⟨"S710A", none⟩]⟩
    [⟨"11", "Engine", "/mg/11",
      [⟨"10", "Engine Sub",
        [⟨1, "D1", "Main Diagram", "/d/1",
          [⟨2, "2", "Universal Part", "5678", "1", "", "2020-01", "", "50.00", "",
            none, none⟩]⟩]⟩]⟩] (by decide)

/-- Claim C9: each emitted diagram's part list is a sublist (hence: unmodified
records, no duplication, order preserved) of that diagram's full
position-ordered part list — filtering only deletes. -/
theorem claim_C9 (db : DB) (vid : String) (vo : VehicleOrder)
    (tree : List MainGroupNested)
    (h : get_vehicle_complete_structure db vid vo = .ok tree) :
    ∀ mg ∈ tree, ∀ sg ∈ mg.subgroups, ∀ dg ∈ sg.diagrams,
      List.Sublist dg.parts (partsQuery db dg.id) := by
  have ht := ok_tree_eq db vid vo tree h
  subst ht
  intro mg hmg sg hsg dg hdg
  unfold buildTree at hmg
  rcases List.mem_map.mp hmg with ⟨mgrow, _, rfl⟩
  simp only [buildMainGroup] at hsg
  rcases List.mem_map.mp hsg with ⟨sgrow, _, rfl⟩
  simp only [buildSubgroup] at hdg
  rcases List.mem_map.mp hdg with ⟨drow, _, rfl⟩
  simp only [buildDiagram]
  exact List.filter_sublist _

/-- The main-group query result is ordered by the integer cast of `mg_number`. -/
theorem mainGroupQuery_sorted (db : DB) (vid : String) :
    (mainGroupQuery db vid).Pairwise
      fun a b => sqlCastInt a.mg_number ≤ sqlCastInt b.mg_number :=
  sortBy_pairwise_intKey (fun r : MGQueryRow => sqlCastInt r.mg_number) _

/-- The subgroup query result is ordered by the integer cast of `sg_number`. -/
theorem subgroupQuery_sorted (db : DB) (mg_id : Int) :
    (subgroupQuery db mg_id).Pairwise
      fun a b => sqlCastInt a.sg_number ≤ sqlCastInt b.sg_number :=
  sortBy_pairwise_intKey (fun r : SGQueryRow => sqlCastInt r.sg_number) _

/-- The diagram query result is ordered lexicographically by `title`. -/
theorem diagramQuery_sorted (db : DB) (vsg_id : Int) :
    (diagramQuery db vsg_id).Pairwise
      fun a b => stringLe a.title b.title = true :=
  sortBy_pairwise_stringKey (fun r : DiagQueryRow => r.title) _

/-- The parts query result is ordered by the integer cast of `position`. -/
theorem partsQuery_sorted (db : DB) (i : Int) :
    (partsQuery db i).Pairwise
      fun a b => sqlCastInt a.position ≤ sqlCastInt b.position := by
  unfold partsQuery
  rw [List.pairwise_map]
  exact sortBy_pairwise_intKey (fun r : PartRow => sqlCastInt r.position) _

/-- Claim C8: for a vehicle whose `mg_number`, `sg_number` and `position`
fields (the ones appearing in its catalog tree) are numeric strings, the
emitted tree is ordered deterministically: main groups ascending by the
numeric value of `mg_number`, within them subgroups ascending by the numeric
value of `sg_number`, within them diagrams lexicographically by `title`, and
within them parts ascending by the numeric value of `position`. -/
theorem claim_C8 (db : DB) (vid : String) (vo : VehicleOrder)
    (tree : List MainGroupNested)
    (hok : get_vehicle_complete_structure db vid vo = .ok tree)
    (hmg : ∀ r ∈ mainGroupQuery db vid, isDigitStr r.mg_number = true)
    (hsg : ∀ mg ∈ mainGroupQuery db vid, ∀ r ∈ subgroupQuery db mg.vmg_id,
      isDigitStr r.sg_number = true)
    (hp : ∀ mg ∈ mainGroupQuery db vid, ∀ sg ∈ subgroupQuery db mg.vmg_id,
      ∀ d ∈ diagramQuery db sg.vsg_id, ∀ p ∈ partsQuery db d.id,
        isDigitStr p.position = true) :
    (tree.Pairwise fun a b => decValue a.mg_number ≤ decValue b.mg_number) ∧
    (∀ mg ∈ tree, mg.subgroups.Pairwise
      fun a b => decValue a.sg_number ≤ decValue b.sg_number) ∧
    (∀ mg ∈ tree, ∀ sg ∈ mg.subgroups,
      sg.diagrams.Pairwise fun a b => stringLe a.title b.title = true) ∧
    (∀ mg ∈ tree, ∀ sg ∈ mg.subgroups, ∀ dg ∈ sg.diagrams,
      dg.parts.Pairwise fun a b => decValue a.position ≤ decValue b.position) := by
  have ht := ok_tree_eq db vid vo tree hok
  subst ht
  refine ⟨?_, ?_, ?_, ?_⟩
  · unfold buildTree
    rw [List.pairwise_map]
    refine (mainGroupQuery_sorted db vid).imp_of_mem ?_
    intro a b ha hb hr
    show decValue a.mg_number ≤ decValue b.mg_number
    rw [sqlCastInt_eq_decValue _ (hmg a ha), sqlCastInt_eq_decValue _ (hmg b hb)] at hr
    exact_mod_cast hr
  · intro mg hmg'
    unfold buildTree at hmg'
    rcases List.mem_map.mp hmg' with ⟨mgrow, hmgrow, rfl⟩
    simp only [buildMainGroup]
    rw [List.pairwise_map]
    refine (subgroupQuery_sorted db mgrow.vmg_id).imp_of_mem ?_
    intro a b ha hb hr
    show decValue a.sg_number ≤ decValue b.sg_number
    rw [sqlCastInt_eq_decValue _ (hsg mgrow hmgrow a ha),
      sqlCastInt_eq_decValue _ (hsg mgrow hmgrow b hb)] at hr
    exact_mod_cast hr
  · intro mg hmg' sg hsg'
    unfold buildTree at hmg'
    rcases List.mem_map.mp hmg' with ⟨mgrow, _, rfl⟩
    simp only [buildMainGroup] at hsg'
    rcases List.mem_map.mp hsg' with ⟨sgrow, _, rfl⟩
    simp only [buildSubgroup]
    rw [List.pairwise_map]
    exact diagramQuery_sorted db sgrow.vsg_id
  · intro mg hmg' sg hsg' dg hdg'
    unfold buildTree at hmg'
    rcases List.mem_map.mp hmg' with ⟨mgrow, hmgrow, rfl⟩
    simp only [buildMainGroup] at hsg'
    rcases List.mem_map.mp hsg' with ⟨sgrow, hsgrow, rfl⟩
    simp only [buildSubgroup] at hdg'
    rcases List.mem_map.mp hdg' with ⟨drow, hdrow, rfl⟩
    simp only [buildDiagram]
    have hq := (partsQuery_sorted db drow.id).sublist
      (@List.filter_sublist _ (partPred (vehicleOrderCodes vo)) (partsQuery db drow.id))
    refine hq.imp_of_mem ?_
    intro a b ha hb hr
    have ha' := (List.mem_filter.mp ha).1
    have hb' := (List.mem_filter.mp hb).1
    show decValue a.position ≤ decValue b.position
    rw [sqlCastInt_eq_decValue _ (hp mgrow hmgrow sgrow hsgrow drow hdrow a ha'),
      sqlCastInt_eq_decValue _ (hp mgrow hmgrow sgrow hsgrow drow hdrow b hb')] at hr
    exact_mod_cast hr

/-- Witness for claim C8 at the sample catalog and an order selecting S710A. -/
theorem claim_C8_witness :
    (([⟨"11", "Engine", "/mg/11",
      [⟨"10", "Engine Sub",
        [⟨1, "D1", "Main Diagram", "/d/1",
          [⟨2, "2", "Universal Part", "5678", "1", "", "2020-01", "", "50.00", "",
            none, none⟩]⟩]⟩]⟩] : List MainGroupNested).Pairwise
      fun a b => decValue a.mg_number ≤ decValue b.mg_number) ∧
    (∀ mg ∈ ([⟨"11", "Engine", "/mg/11",
      [⟨"10", "Engine Sub",
        [⟨1, "D1", "Main Diagram", "/d/1",
          [⟨2, "2", "Universal Part", "5678", "1", "", "2020-01", "", "50.00", "",
            none, none⟩]⟩]⟩]⟩] : List MainGroupNested), mg.subgroups.Pairwise
      fun a b => decValue a.sg_number ≤ decValue b.sg_number) ∧
    (∀ mg ∈ ([⟨"11", "Engine", "/mg/11",
      [⟨"10", "Engine Sub",
        [⟨1, "D1", "Main Diagram", "/d/1",
          [⟨2, "2", "Universal Part", "5678", "1", "", "2020-01", "", "50.00", "",
            none, none⟩]⟩]⟩]⟩] : List MainGroupNested), ∀ sg ∈ mg.subgroups,
      sg.diagrams.Pairwise fun a b => stringLe a.title b.title = true) ∧
    (∀ mg ∈ ([⟨"11", "Engine", "/mg/11",
      [⟨"10", "Engine Sub",
        [⟨1, "D1", "Main Diagram", "/d/1",
          [⟨2, "2", "Universal Part", "5678", "1", "", "2020-01", "", "50.00", "",
            none, none⟩]⟩]⟩]⟩] : List MainGroupNested), ∀ sg ∈ mg.subgroups,
      ∀ dg ∈ sg.diagrams, dg.parts.Pairwise
        fun a b => decValue a.position ≤ decValue b.position) :=
  claim_C8 sampleDB "V1" ⟨"V1", [⟨"S710A", none⟩]⟩
    [⟨"11", "Engine", "/mg/11",
      [⟨"10", "Engine Sub",
        [⟨1, "D1", "Main Diagram", "/d/1",
          [⟨2, "2", "Universal Part", "5678", "1", "", "2020-01", "", "50.00", "",
            none, none⟩]⟩]⟩]⟩]
    (by decide) (by decide) (by decide) (by decide)

/-- Witness for claim C9 at the sample catalog's single diagram. -/
theorem claim_C9_witness :
    List.Sublist
      [(⟨2, "2", "Universal Part", "5678", "1", "", "2020-01", "", "50.00", "",
        none, none⟩ : PartNested)]
      (partsQuery sampleDB 1) :=
  claim_C9 sampleDB "V1" ⟨"V1", [⟨"S710A", none⟩]⟩
    [⟨"11", "Engine", "/mg/11",
      [⟨"10", "Engine Sub",
        [⟨1, "D1", "Main Diagram", "/d/1",
          [⟨2, "2", "Universal Part", "5678", "1", "", "2020-01", "", "50.00", "",
            none, none⟩]⟩]⟩]⟩] (by decide)
    ⟨"11", "Engine", "/mg/11",
      [⟨"10", "Engine Sub",
        [⟨1, "D1", "Main Diagram", "/d/1",
          [⟨2, "2", "Universal Part", "5678", "1", "", "2020-01", "", "50.00", "",
            none, none⟩]⟩]⟩]⟩ (by decide)
    ⟨"10", "Engine Sub",
      [⟨1, "D1", "Main Diagram", "/d/1",
        [⟨2, "2", "Universal Part", "5678", "1", "", "2020-01", "", "50.00", "",
          none, none⟩]⟩]⟩ (by decide)
    ⟨1, "D1", "Main Diagram", "/d/1",
      [⟨2, "2", "Universal Part", "5678", "1", "", "2020-01", "", "50.00", "",
        none, none⟩]⟩ (by decide)

/-- Claim C10: the response depends on the submitted order only through the
set of its code strings — descriptions, duplication, ordering of
`order_codes`, and the `vid` field of the body are never consulted. -/
theorem claim_C10 (db : DB) (vid : String) (vo1 vo2 : VehicleOrder)
    (h : ∀ c : String, (vehicleOrderCodes vo1).contains c =
      (vehicleOrderCodes vo2).contains c) :
    get_vehicle_complete_structure db vid vo1 =
      get_vehicle_complete_structure db vid vo2 := by
  have hpred : partPred (vehicleOrderCodes vo1) = partPred (vehicleOrderCodes vo2) := by
    funext p
    exact includePart_congr_contains p.option_codes _ _ h
  have hd : buildDiagram db (vehicleOrderCodes vo1) =
      buildDiagram db (vehicleOrderCodes vo2) := by
    funext d
    simp only [buildDiagram, hpred]
  have hs : buildSubgroup db (vehicleOrderCodes vo1) =
      buildSubgroup db (vehicleOrderCodes vo2) := by
    funext sg
    simp only [buildSubgroup, hd]
  have hb : buildMainGroup db (vehicleOrderCodes vo1) =
      buildMainGroup db (vehicleOrderCodes vo2) := by
    funext mg
    simp only [buildMainGroup, hs]
  unfold get_vehicle_complete_structure
  cases vehicleLookup db vid with
  | none => rfl
  | some veh =>
    simp only [buildTree, hb]

/-- Witness for claim C10: same code set, different descriptions, duplication,
ordering and body vid give the same response. -/
theorem claim_C10_witness :
    get_vehicle_complete_structure sampleDB "V1"
        ⟨"V1", [⟨"S710A", some "sunroof"⟩, ⟨"S710A", none⟩]⟩ =
      get_vehicle_complete_structure sampleDB "V1" ⟨"ZZZ", [⟨"S710A", none⟩]⟩ :=
  claim_C10 sampleDB "V1" ⟨"V1", [⟨"S710A", some "sunroof"⟩, ⟨"S710A", none⟩]⟩
    ⟨"ZZZ", [⟨"S710A", none⟩]⟩
    (fun c => by simp [vehicleOrderCodes, List.contains])

end PartsApi
